import Mathlib

/-!
Verification of the acorn-microblog feed core (follow graph, post store,
timeline query engine, and the route-layer glue in `app/main/routes.py`),
shallowly embedded in Lean.  Timestamps are modelled as natural numbers,
user ids as natural numbers, and the follow-edge store as a list of
ordered pairs (follower_id, followed_id), matching the `followers` table
created by the migration `c8a885bf2dff_followers.py` (two integer
columns, no uniqueness constraint at storage level).
-/

namespace Acorn

/-- A stored post: author reference, creation timestamp, body text and
language tag, as constructed in `routes.py` line 63
(`Post(body=form.post.data, author=current_user, language=language)`)
with the server-assigned timestamp. -/
structure Post where
  author : Nat
  timestamp : Nat
  body : String
  language : String
  deriving DecidableEq, Repr

/-- A user row: id, username, email, bio text and last-seen timestamp,
from the spec's data model and the columns added by the migration
`ceb11b56f48e_new_fields_in_user_model.py`. -/
structure User where
  id : Nat
  username : String
  email : String
  about_me : String
  last_seen : Nat
  deriving DecidableEq, Repr

/-- Modelled from the spec: `followed_ids(a)` of §4.1 — the set of user
ids that `a` follows, including `a` itself (the method lives in
`app/models.py`, which is not under `src/`). -/
def followed_ids (edges : List (Nat × Nat)) (a : Nat) : List Nat :=
  a :: (edges.filter (fun e => e.1 == a)).map (fun e => e.2)

/-- Modelled from the spec: `is_following(a, b)` of §4.1, true by
construction on the diagonal via self-inclusion (§8); the method lives
in `app/models.py`, which is not under `src/`. -/
def is_following (edges : List (Nat × Nat)) (a b : Nat) : Bool :=
  (followed_ids edges a).contains b

/-- Modelled from the spec: `follow(a, b)` of §4.1 — adds edge a→b if
absent; no-op if already present or if a = b (the method lives in
`app/models.py`, which is not under `src/`). -/
def follow (edges : List (Nat × Nat)) (a b : Nat) : List (Nat × Nat) :=
  if is_following edges a b then edges else (a, b) :: edges

/-- Modelled from the spec: `unfollow(a, b)` of §4.1 — removes edge a→b
if present; no-op otherwise (the method lives in `app/models.py`, which
is not under `src/`). -/
def unfollow (edges : List (Nat × Nat)) (a b : Nat) : List (Nat × Nat) :=
  if (a, b) ∈ edges then edges.erase (a, b) else edges

/-- Edge sets reachable from the empty store through the store's own
follow/unfollow operations. -/
inductive Reachable : List (Nat × Nat) → Prop
  | nil : Reachable []
  | step_follow (s : List (Nat × Nat)) (a b : Nat) :
      Reachable s → Reachable (follow s a b)
  | step_unfollow (s : List (Nat × Nat)) (a b : Nat) :
      Reachable s → Reachable (unfollow s a b)

/-- Insertion of a post into a reverse-chronological list, keeping
already-placed posts with an equal or larger timestamp first (stable). -/
def insert_desc (p : Post) : List Post → List Post
  | [] => [p]
  | q :: qs =>
      if p.timestamp ≤ q.timestamp then q :: insert_desc p qs
      else p :: q :: qs

/-- Reverse-chronological (timestamp descending) stable sort, modelling
the `order_by(Post.timestamp.desc())` clause. -/
def sort_desc : List Post → List Post
  | [] => []
  | p :: ps => insert_desc p (sort_desc ps)

/-- Modelled from the spec: `followed_posts` of §4.3 (the method lives in
`app/models.py`, which is not under `src/`) — all posts whose author is
in `followed_ids(u)`, ordered by timestamp descending. -/
def followed_posts (edges : List (Nat × Nat)) (u : Nat)
    (posts : List Post) : List Post :=
  sort_desc (posts.filter (fun p => (followed_ids edges u).contains p.author))

/-- Result of a `paginate` call: the page's items and the
previous/next-page flags used by the routes. -/
structure PageResult where
  items : List Post
  has_prev : Bool
  has_next : Bool
  deriving DecidableEq, Repr

/-- Modelled from the spec: the pagination contract of §4.3 for
`query.paginate(page, per_page, False)` (the implementation is the
external Flask-SQLAlchemy library).  Page numbers are 1-indexed; the
page is items `[(N-1)*P : N*P)` of the ordered result, empty rather
than failing when the page is past the end. -/
def paginate (l : List Post) (page : Int) (per_page : Nat) : PageResult :=
  { items := (l.drop ((page.toNat - 1) * per_page)).take per_page
    has_prev := decide (1 < page)
    has_next := decide (page * per_page < l.length) }

/-- Query-string lookup: first value bound to `key` in the request
arguments, as `request.args.get(key)`. -/
def lookup_arg (args : List (String × String)) (key : String) :
    Option String :=
  (args.find? (fun kv => kv.1 == key)).map (fun kv => kv.2)

/-- Decimal digit-run parser: the value of a nonempty all-digit
character list, `none` otherwise. -/
def parse_digits (cs : List Char) : Option Nat :=
  if cs.isEmpty then none
  else if cs.all (fun c => c.isDigit) then
    some (cs.foldl (fun n c => n * 10 + (c.toNat - 48)) 0)
  else none

/-- Integer conversion of a query-string value, as Python's `int()`
applied by `type=int`: an optional sign followed by digits; any other
shape fails. -/
def parse_int (s : String) : Option Int :=
  match s.data with
  | '-' :: cs => (parse_digits cs).map (fun n => -(n : Int))
  | '+' :: cs => (parse_digits cs).map (fun n => (n : Int))
  | cs => (parse_digits cs).map (fun n => (n : Int))

/-- Embeds `request.args.get('page', 1, type=int)` (`routes.py` lines
100, 152, 256): value of `page` converted to an integer, falling back
to the default 1 when the argument is absent or not an integer. -/
def get_page (args : List (String × String)) : Int :=
  match lookup_arg args "page" with
  | none => 1
  | some s =>
      match parse_int s with
      | none => 1
      | some n => n

/-- Embeds the feed computation of the `index` route (`routes.py` lines
100-101): paginate the current user's followed posts at the requested
page, `POSTS_PER_PAGE` items per page. -/
def index_posts (edges : List (Nat × Nat)) (current : Nat)
    (posts : List Post) (args : List (String × String))
    (posts_per_page : Nat) : PageResult :=
  paginate (followed_posts edges current posts) (get_page args) posts_per_page

/-- Embeds the feed computation of the `explore` route (`routes.py`
lines 256-257): paginate all posts ordered by timestamp descending. -/
def explore_posts (posts : List Post) (args : List (String × String))
    (posts_per_page : Nat) : PageResult :=
  paginate (sort_desc posts) (get_page args) posts_per_page

/-- Embeds the language normalization of the `index` route (`routes.py`
lines 59-61): the detector result is replaced by the empty string when
it is UNKNOWN or longer than 5 characters. -/
def normalize_language (language : String) : String :=
  if language = "UNKNOWN" ∨ language.length > 5 then "" else language

/-- Embeds post creation in the `index` route (`routes.py` lines 59-64):
a new post by the current user with the normalized detected language
and the server-assigned timestamp. -/
def create_post (body : String) (author : Nat) (detected : String)
    (now : Nat) : Post :=
  { body := body, author := author, timestamp := now
    language := normalize_language detected }

/-- Embeds the `before_request` hook (`routes.py` lines 18-30): when the
current user is authenticated, its `last_seen` field is set to the
current UTC time and committed; otherwise the hook writes nothing. -/
def before_request (authenticated : Bool) (now : Nat) (u : User) : User :=
  if authenticated then { u with last_seen := now } else u

/-- Outcome of the follow/unfollow routes: the resulting edge set, the
flashed message, and whether the store operation was invoked. -/
structure RouteResult where
  edges : List (Nat × Nat)
  flash : String
  store_called : Bool
  deriving DecidableEq, Repr

/-- Embeds the `follow` route (`routes.py` lines 197-219): resolve the
username; flash an error if it is unknown or resolves to the current
user (returning without touching the store); otherwise call the store's
follow and commit. -/
def route_follow (users : List User) (edges : List (Nat × Nat))
    (current : User) (uname : String) : RouteResult :=
  match users.find? (fun u => u.username == uname) with
  | none => ⟨edges, "User " ++ uname ++ " not found.", false⟩
  | some u =>
      if u = current then
        ⟨edges, "You cannot follow yourself!", false⟩
      else
        ⟨follow edges current.id u.id,
         "You are following " ++ uname ++ "!", true⟩

/-- Embeds the `unfollow` route (`routes.py` lines 224-246): resolve the
username; flash an error if it is unknown or resolves to the current
user (returning without touching the store); otherwise call the store's
unfollow and commit. -/
def route_unfollow (users : List User) (edges : List (Nat × Nat))
    (current : User) (uname : String) : RouteResult :=
  match users.find? (fun u => u.username == uname) with
  | none => ⟨edges, "User " ++ uname ++ " not found.", false⟩
  | some u =>
      if u = current then
        ⟨edges, "You cannot unfollow yourself!", false⟩
      else
        ⟨unfollow edges current.id u.id,
         "You are not following " ++ uname ++ ".", true⟩

/-- Column types occurring in the two migration scripts. -/
inductive ColumnType
  | integer
  | string (length : Nat)
  | dateTime
  deriving DecidableEq, Repr

/-- A schema column: name, type, nullability. -/
structure Column where
  name : String
  ctype : ColumnType
  nullable : Bool
  deriving DecidableEq, Repr

/-- Embeds the columns added to the `user` table by the migration
`ceb11b56f48e_new_fields_in_user_model.py` (lines 19-23):
`about_me` as String(140) and `last_seen` as DateTime, both nullable. -/
def user_new_columns : List Column :=
  [ { name := "about_me", ctype := .string 140, nullable := true },
    { name := "last_seen", ctype := .dateTime, nullable := true } ]

/-- A string value conforms to a column type when it fits the declared
maximum length; non-string column types impose no length bound. -/
def fits_column (t : ColumnType) (s : String) : Prop :=
  match t with
  | .string n => s.length ≤ n
  | _ => True

/-- A user row conforms to the schema when its bio text fits the
declared `about_me` column. -/
def user_row_conforms (cols : List Column) (u : User) : Prop :=
  ∀ c ∈ cols, c.name = "about_me" → fits_column c.ctype u.about_me

/-- Concrete posts of the spec's timeline scenario (§8): P1 by user 1 at
time 1, P2 by user 2 at time 2, P3 by user 3 at time 3. -/
def scenario_p1 : Post := { author := 1, timestamp := 1, body := "P1", language := "" }

/-- Second scenario post. -/
def scenario_p2 : Post := { author := 2, timestamp := 2, body := "P2", language := "" }

/-- Third scenario post, by the unrelated user 3. -/
def scenario_p3 : Post := { author := 3, timestamp := 3, body := "P3", language := "" }

/-- Twenty-five posts, for the pagination boundary scenario of §8. -/
def posts25 : List Post :=
  (List.range 25).map (fun i => { author := 0, timestamp := i, body := "", language := "" })

theorem mem_insert_desc {x p : Post} {l : List Post} :
    x ∈ insert_desc p l ↔ x = p ∨ x ∈ l := by
  induction l with
  | nil => simp [insert_desc]
  | cons q qs ih =>
      simp only [insert_desc]
      split
      · simp only [List.mem_cons, ih]
        tauto
      · simp only [List.mem_cons]

theorem mem_sort_desc {x : Post} {l : List Post} :
    x ∈ sort_desc l ↔ x ∈ l := by
  induction l with
  | nil => simp [sort_desc]
  | cons p ps ih =>
      simp only [sort_desc, mem_insert_desc, List.mem_cons, ih]

theorem sorted_insert_desc {p : Post} {l : List Post}
    (h : List.Pairwise (fun a b => b.timestamp ≤ a.timestamp) l) :
    List.Pairwise (fun a b => b.timestamp ≤ a.timestamp) (insert_desc p l) := by
  induction l with
  | nil => simp [insert_desc]
  | cons q qs ih =>
      rw [List.pairwise_cons] at h
      simp only [insert_desc]
      split
      · rename_i hpq
        rw [List.pairwise_cons]
        refine ⟨fun x hx => ?_, ih h.2⟩
        rcases mem_insert_desc.mp hx with rfl | hx
        · exact hpq
        · exact h.1 x hx
      · rename_i hpq
        rw [List.pairwise_cons]
        refine ⟨fun x hx => ?_, List.pairwise_cons.mpr h⟩
        rcases List.mem_cons.mp hx with rfl | hx
        · omega
        · exact le_trans (h.1 x hx) (by omega)

theorem sorted_sort_desc (l : List Post) :
    List.Pairwise (fun a b => b.timestamp ≤ a.timestamp) (sort_desc l) := by
  induction l with
  | nil => simp [sort_desc]
  | cons p ps ih => exact sorted_insert_desc ih

theorem mem_followed_ids {edges : List (Nat × Nat)} {a b : Nat} :
    b ∈ followed_ids edges a ↔ b = a ∨ (a, b) ∈ edges := by
  simp only [followed_ids, List.mem_cons, List.mem_map, List.mem_filter,
    beq_iff_eq]
  constructor
  · rintro (rfl | ⟨⟨x, y⟩, ⟨hmem, rfl⟩, rfl⟩)
    · exact Or.inl rfl
    · exact Or.inr hmem
  · rintro (rfl | hmem)
    · exact Or.inl rfl
    · exact Or.inr ⟨(a, b), ⟨hmem, rfl⟩, rfl⟩

theorem is_following_iff {edges : List (Nat × Nat)} {a b : Nat} :
    is_following edges a b = true ↔ b = a ∨ (a, b) ∈ edges := by
  exact Iff.trans List.elem_iff mem_followed_ids

theorem is_following_self (edges : List (Nat × Nat)) (a : Nat) :
    is_following edges a a = true :=
  is_following_iff.mpr (Or.inl rfl)

theorem follow_self (s : List (Nat × Nat)) (a : Nat) :
    follow s a a = s := by
  rw [follow, if_pos (is_following_self s a)]

theorem reachable_count_le_one {s : List (Nat × Nat)}
    (h : Reachable s) (e : Nat × Nat) : List.count e s ≤ 1 := by
  induction h with
  | nil => simp
  | step_follow t a b _ ih =>
      rw [follow]
      split
      · exact ih
      · rename_i hnf
        have hnm : (a, b) ∉ t := fun hm => hnf (is_following_iff.mpr (Or.inr hm))
        rw [List.count_cons]
        by_cases he : (a, b) = e
        · subst he
          simp [List.count_eq_zero.mpr hnm]
        · simp only [beq_iff_eq, if_neg he]
          simpa using ih
  | step_unfollow t a b _ ih =>
      rw [unfollow]
      split
      · exact le_trans (List.Sublist.count_le (List.erase_sublist _ _) e) ih
      · exact ih

theorem reachable_no_self_edge {s : List (Nat × Nat)}
    (h : Reachable s) (a : Nat) : List.count (a, a) s = 0 := by
  induction h with
  | nil => simp
  | step_follow t c b _ ih =>
      rw [follow]
      split
      · exact ih
      · rename_i hnf
        have hne : b ≠ c := fun hb => hnf (is_following_iff.mpr (Or.inl hb))
        have hcond : ¬ ((c, b) = (a, a)) := by
          intro hh
          injection hh with h1 h2
          exact hne (h2.trans h1.symm)
        rw [List.count_cons, ih]
        simp only [beq_iff_eq, if_neg hcond]
  | step_unfollow t c b _ ih =>
      rw [unfollow]
      split
      · have := List.Sublist.count_le (List.erase_sublist (c, b) t) (a, a)
        omega
      · exact ih

/-- C1. Timeline correctness: for a user U the home timeline is exactly
the posts whose author is in followed_ids(U), ordered by timestamp
descending and paginated; in particular, with A=1 following B=2 and
posts P1 (by A, t=1), P2 (by B, t=2), P3 (by C=3, unrelated), A's
timeline page 1 of size 10 returns [P2, P1] and excludes P3. -/
theorem C1_timeline_correct (edges : List (Nat × Nat)) (u : Nat)
    (posts : List Post) (args : List (String × String)) (pp : Nat) :
    (∀ p, p ∈ followed_posts edges u posts ↔
        p ∈ posts ∧ p.author ∈ followed_ids edges u) ∧
    List.Pairwise (fun a b => b.timestamp ≤ a.timestamp)
      (followed_posts edges u posts) ∧
    index_posts edges u posts args pp =
      paginate (followed_posts edges u posts) (get_page args) pp ∧
    (index_posts [(1, 2)] 1 [scenario_p1, scenario_p2, scenario_p3] [] 10).items
      = [scenario_p2, scenario_p1] ∧
    List.count scenario_p3
      (index_posts [(1, 2)] 1 [scenario_p1, scenario_p2, scenario_p3] [] 10).items
      = 0 := by
  refine ⟨fun p => ?_, sorted_sort_desc _, rfl, by decide, by decide⟩
  rw [followed_posts, mem_sort_desc, List.mem_filter]
  simp only [List.elem_iff]

/-- C1 witness: the theorem evaluated at the spec's concrete scenario. -/
theorem C1_timeline_correct_witness :
    (scenario_p2 ∈ followed_posts [(1, 2)] 1 [scenario_p1, scenario_p2, scenario_p3] ↔
      scenario_p2 ∈ [scenario_p1, scenario_p2, scenario_p3] ∧
      scenario_p2.author ∈ followed_ids [(1, 2)] 1) ∧
    (index_posts [(1, 2)] 1 [scenario_p1, scenario_p2, scenario_p3] [] 10).items
      = [scenario_p2, scenario_p1] :=
  ⟨(C1_timeline_correct [(1, 2)] 1 [scenario_p1, scenario_p2, scenario_p3] [] 10).1
      scenario_p2,
   (C1_timeline_correct [(1, 2)] 1 [scenario_p1, scenario_p2, scenario_p3] [] 10).2.2.2.1⟩

/-- C2. Self-inclusion invariant: followed_ids(a) always contains a
itself, is_following(a, a) holds by construction, and no explicit
self-edge a→a is ever present in a reachable edge store. -/
theorem C2_self_inclusion :
    (∀ (edges : List (Nat × Nat)) (a : Nat), a ∈ followed_ids edges a) ∧
    (∀ (edges : List (Nat × Nat)) (a : Nat), is_following edges a a = true) ∧
    (∀ s : List (Nat × Nat), Reachable s →
      ∀ a : Nat, List.count (a, a) s = 0) :=
  ⟨fun _ a => List.mem_cons_self a _,
   fun edges a => is_following_self edges a,
   fun _ h a => reachable_no_self_edge h a⟩

/-- C2 witness: the three parts at the reachable state follow([], 1, 2). -/
theorem C2_self_inclusion_witness :
    1 ∈ followed_ids (follow [] 1 2) 1 ∧
    is_following (follow [] 1 2) 1 1 = true ∧
    List.count (1, 1) (follow [] 1 2) = 0 :=
  ⟨C2_self_inclusion.1 (follow [] 1 2) 1,
   C2_self_inclusion.2.1 (follow [] 1 2) 1,
   C2_self_inclusion.2.2 (follow [] 1 2)
     (Reachable.step_follow [] 1 2 Reachable.nil) 1⟩

/-- C7. Follow-edge uniqueness: every state of the follow store
reachable through the store's own operations carries at most one edge
per ordered pair (follower_id, followed_id). -/
theorem C7_edge_uniqueness (s : List (Nat × Nat)) (h : Reachable s)
    (e : Nat × Nat) : List.count e s ≤ 1 :=
  reachable_count_le_one h e

/-- C7 witness: uniqueness at the reachable state follow(follow([], 0, 1), 0, 1). -/
theorem C7_edge_uniqueness_witness :
    List.count (0, 1) (follow (follow [] 0 1) 0 1) ≤ 1 :=
  C7_edge_uniqueness (follow (follow [] 0 1) 0 1)
    (Reachable.step_follow _ 0 1 (Reachable.step_follow [] 0 1 Reachable.nil))
    (0, 1)

/-- C8. Idempotence: follow(a, b) twice yields the same edge set as
once, and unfollow(a, b) on an absent edge leaves the edge set
unchanged. -/
theorem C8_idempotence (s : List (Nat × Nat)) (a b : Nat) :
    follow (follow s a b) a b = follow s a b ∧
    ((a, b) ∉ s → unfollow s a b = s) := by
  constructor
  · have htrue : is_following (follow s a b) a b = true := by
      rw [follow]
      split
      · assumption
      · exact is_following_iff.mpr (Or.inr (List.mem_cons_self _ _))
    rw [follow, if_pos htrue]
  · intro hab
    rw [unfollow, if_neg hab]

/-- C8 witness: idempotence evaluated on the empty store at the pair (0, 1). -/
theorem C8_idempotence_witness :
    follow (follow [] 0 1) 0 1 = follow [] 0 1 ∧ unfollow [] 0 1 = [] :=
  ⟨(C8_idempotence [] 0 1).1, (C8_idempotence [] 0 1).2 (by decide)⟩

/-- C4. Language normalization on post creation: the stored language tag
is the empty string when the detector returned UNKNOWN or a string
longer than 5 characters, and the detector result unchanged otherwise;
in particular en is stored as en. -/
theorem C4_language_normalization (body : String) (author : Nat)
    (L : String) (now : Nat) :
    ((L = "UNKNOWN" ∨ L.length > 5) →
      (create_post body author L now).language = "") ∧
    (L ≠ "UNKNOWN" → L.length ≤ 5 →
      (create_post body author L now).language = L) ∧
    (create_post body author "en" now).language = "en" ∧
    (create_post body author "UNKNOWN" now).language = "" := by
  refine ⟨fun h => ?_, fun h1 h2 => ?_,
    by simp [create_post, normalize_language]; decide,
    by simp [create_post, normalize_language]⟩
  · rw [create_post]
    simp only [normalize_language, if_pos h]
  · rw [create_post]
    simp only [normalize_language]
    rw [if_neg]
    push_neg
    exact ⟨h1, h2⟩

/-- C4 witness: normalization evaluated at the detector outputs en and
a 7-character phrase. -/
theorem C4_language_normalization_witness :
    (create_post "hi" 0 "english" 0).language = "" ∧
    (create_post "hi" 0 "en" 0).language = "en" :=
  ⟨(C4_language_normalization "hi" 0 "english" 0).1 (Or.inr (by decide)),
   (C4_language_normalization "hi" 0 "en" 0).2.1 (by decide) (by decide)⟩

/-- C5. Self-follow rejection at the route layer: when the target
username resolves to the current user, the follow and unfollow routes
flash a user-visible error and return with the edge set unchanged and
the store operation not invoked; the store itself rejects nothing, its
follow on a self-pair being a plain no-op rather than an error. -/
theorem C5_self_follow_rejected (users : List User)
    (edges : List (Nat × Nat)) (current : User) (uname : String)
    (u : User) (hfind : users.find? (fun v => v.username == uname) = some u)
    (hself : u = current) :
    (route_follow users edges current uname).edges = edges ∧
    (route_follow users edges current uname).store_called = false ∧
    (route_follow users edges current uname).flash =
      "You cannot follow yourself!" ∧
    (route_unfollow users edges current uname).edges = edges ∧
    (route_unfollow users edges current uname).store_called = false ∧
    (route_unfollow users edges current uname).flash =
      "You cannot unfollow yourself!" ∧
    (∀ (s : List (Nat × Nat)) (a : Nat), follow s a a = s) := by
  subst hself
  rw [route_follow, route_unfollow, hfind]
  simp only [if_pos rfl]
  exact ⟨rfl, rfl, rfl, rfl, rfl, rfl, follow_self⟩

/-- C5 witness: the follow route invoked by user alice on the username
alice, over an empty edge store. -/
theorem C5_self_follow_rejected_witness :
    (route_follow [⟨1, "alice", "a@example.com", "", 0⟩] []
        ⟨1, "alice", "a@example.com", "", 0⟩ "alice").edges = [] ∧
    (route_follow [⟨1, "alice", "a@example.com", "", 0⟩] []
        ⟨1, "alice", "a@example.com", "", 0⟩ "alice").store_called = false :=
  ⟨(C5_self_follow_rejected [⟨1, "alice", "a@example.com", "", 0⟩] []
      ⟨1, "alice", "a@example.com", "", 0⟩ "alice"
      ⟨1, "alice", "a@example.com", "", 0⟩ (by decide) rfl).1,
   (C5_self_follow_rejected [⟨1, "alice", "a@example.com", "", 0⟩] []
      ⟨1, "alice", "a@example.com", "", 0⟩ "alice"
      ⟨1, "alice", "a@example.com", "", 0⟩ (by decide) rfl).2.1⟩

/-- C9. Frame effect of before_request: on an authenticated request the
hook sets the user's last_seen to the current time and changes no other
field; on an unauthenticated request the persistent user row is left
unchanged. -/
theorem C9_before_request_frame (authenticated : Bool) (now : Nat)
    (u : User) :
    (authenticated = true →
      (before_request authenticated now u).last_seen = now ∧
      (before_request authenticated now u).id = u.id ∧
      (before_request authenticated now u).username = u.username ∧
      (before_request authenticated now u).email = u.email ∧
      (before_request authenticated now u).about_me = u.about_me) ∧
    (authenticated = false → before_request authenticated now u = u) := by
  constructor
  · intro h
    subst h
    exact ⟨rfl, rfl, rfl, rfl, rfl⟩
  · intro h
    subst h
    rfl

/-- C9 witness: the hook applied to a concrete user in both the
authenticated and the unauthenticated case. -/
theorem C9_before_request_frame_witness :
    (before_request true 99 ⟨1, "alice", "a@example.com", "bio", 0⟩).last_seen
      = 99 ∧
    before_request false 99 ⟨1, "alice", "a@example.com", "bio", 0⟩
      = ⟨1, "alice", "a@example.com", "bio", 0⟩ :=
  ⟨((C9_before_request_frame true 99
      ⟨1, "alice", "a@example.com", "bio", 0⟩).1 rfl).1,
   (C9_before_request_frame false 99
      ⟨1, "alice", "a@example.com", "bio", 0⟩).2 rfl⟩

/-- C10. Schema bound on the bio text: the migration declares about_me
as a string column of maximum length 140, so every user row conforming
to the schema has a bio of at most 140 characters. -/
theorem C10_about_me_bound (u : User)
    (h : user_row_conforms user_new_columns u) :
    u.about_me.length ≤ 140 ∧
    (Column.mk "about_me" (.string 140) true) ∈ user_new_columns := by
  refine ⟨?_, by decide⟩
  exact h (Column.mk "about_me" (.string 140) true) (by decide) rfl

/-- C3. Pagination contract: for page N ≥ 1 and page size P, the page
holds items [(N-1)*P, N*P) of the ordered result, is empty rather than
failing past the end, has_prev holds exactly when N > 1 and has_next
exactly when the next page is nonempty; with 25 posts and size 10,
page 3 has 5 items, has_next false, has_prev true, and page 4 is
empty. -/
theorem C3_pagination_contract (l : List Post) (N : Int) (P : Nat)
    (hN : 1 ≤ N) (hP : 0 < P) :
    (∀ i : Nat, i < P →
      (paginate l N P).items[i]? = l[(N.toNat - 1) * P + i]?) ∧
    (paginate l N P).items.length ≤ P ∧
    (l.length ≤ (N.toNat - 1) * P → (paginate l N P).items = []) ∧
    ((paginate l N P).has_prev = true ↔ 1 < N) ∧
    ((paginate l N P).has_next = true ↔
      0 < (paginate l (N + 1) P).items.length) ∧
    (paginate posts25 3 10).items.length = 5 ∧
    (paginate posts25 3 10).has_next = false ∧
    (paginate posts25 3 10).has_prev = true ∧
    (paginate posts25 4 10).items = [] := by
  refine ⟨fun i hi => ?_, ?_, fun h => ?_, ?_, ?_,
    by decide, by decide, by decide, by decide⟩
  · simp only [paginate]
    rw [List.getElem?_take, if_pos hi, List.getElem?_drop]
  · simp only [paginate, List.length_take]
    exact min_le_left _ _
  · simp only [paginate]
    rw [List.drop_eq_nil_of_le h, List.take_nil]
  · simp only [paginate, decide_eq_true_eq]
  · have hNeq : (N.toNat : Int) = N := Int.toNat_of_nonneg (by omega)
    have h1 : (N + 1).toNat - 1 = N.toNat := by omega
    simp only [paginate, List.length_take, List.length_drop,
      decide_eq_true_eq, h1]
    have hcast : (N * P < (l.length : Int)) ↔ N.toNat * P < l.length := by
      rw [← hNeq]
      constructor <;> intro h <;> exact_mod_cast h
    rw [hcast]
    generalize N.toNat * P = m
    omega

/-- C3 witness: the pagination boundary scenario, 25 posts with page
size 10 at page 3. -/
theorem C3_pagination_contract_witness :
    (paginate posts25 3 10).items.length = 5 ∧
    (paginate posts25 3 10).has_next = false ∧
    (paginate posts25 3 10).has_prev = true :=
  ⟨(C3_pagination_contract posts25 3 10 (by decide) (by decide)).2.2.2.2.2.1,
   (C3_pagination_contract posts25 3 10 (by decide) (by decide)).2.2.2.2.2.2.1,
   (C3_pagination_contract posts25 3 10 (by decide) (by decide)).2.2.2.2.2.2.2.1⟩

/-- C6 counterexample: the claim that the route layer clamps the page
number to a positive integer before calling the engine fails — the
query string page=-5 parses to -5 and is handed to paginate
unchanged. -/
theorem C6_page_clamp_counterexample :
    get_page [("page", "-5")] = -5 ∧
    index_posts [] 1 [] [("page", "-5")] 10 =
      paginate (followed_posts [] 1 []) (-5) 10 ∧
    ¬ (1 ≤ get_page [("page", "-5")]) :=
  ⟨by decide, rfl, by decide⟩

/-- C6 amended: the route layer parses page from the query string,
defaulting to 1 when the argument is absent or not an integer, and
passes the parsed value to the Timeline Query Engine without clamping,
so values below 1 reach the engine unchanged. -/
theorem C6_page_default_amended (args : List (String × String)) :
    (lookup_arg args "page" = none → get_page args = 1) ∧
    (∀ s, lookup_arg args "page" = some s → parse_int s = none →
      get_page args = 1) ∧
    (∀ s n, lookup_arg args "page" = some s → parse_int s = some n →
      get_page args = n) ∧
    (∀ (edges : List (Nat × Nat)) (current : Nat) (posts : List Post)
      (pp : Nat),
      index_posts edges current posts args pp =
        paginate (followed_posts edges current posts) (get_page args) pp) := by
  refine ⟨fun h => ?_, fun s hs hn => ?_, fun s n hs hn => ?_,
    fun _ _ _ _ => rfl⟩
  · simp only [get_page, h]
  · simp only [get_page, hs, hn]
  · simp only [get_page, hs, hn]

/-- C6 witness: the default on an absent argument, the default on a
non-integer value, and the unclamped pass-through of page 0. -/
theorem C6_page_default_amended_witness :
    get_page [] = 1 ∧ get_page [("page", "abc")] = 1 ∧
    get_page [("page", "0")] = 0 :=
  ⟨(C6_page_default_amended []).1 rfl,
   (C6_page_default_amended [("page", "abc")]).2.1 "abc" (by decide) (by decide),
   (C6_page_default_amended [("page", "0")]).2.2.1 "0" 0 (by decide) (by decide)⟩

/-- C10 witness: a concrete conforming user row. -/
theorem C10_about_me_bound_witness :
    (User.mk 1 "alice" "a@example.com" "hello" 0).about_me.length ≤ 140 :=
  (C10_about_me_bound (User.mk 1 "alice" "a@example.com" "hello" 0)
    (by
      intro c hc hname
      simp only [user_new_columns, List.mem_cons, List.not_mem_nil,
        or_false] at hc
      rcases hc with rfl | rfl
      · exact (by decide : ("hello" : String).length ≤ 140)
      · exact trivial)).1

end Acorn
